import Mathlib

/-!
Verification development for the DrowsyGuard backend (src/api/app.py).

The service is a set of CRUD endpoints over a relational store
(users, sessions, detections) plus a thin inference wrapper.  We give a
shallow embedding of the store and of the operations the claims are
about: `start_session`, `end_session`, `detect_drowsiness` (the
recordDetection operation), `infer_image`, the safety-score computation
of `get_dashboard`, the drowsy-driver count of `get_admin_dashboard`,
and `get_session_details`.  SQL rows become Lean structures, tables
become lists, `datetime.now()` and `CURRENT_TIMESTAMP` become explicit
`now : Nat` parameters, and Python floats become rationals.  HTTP
failures are modelled as `Except` values carrying the status code.
-/

/-- ASCII lowercase of one character, as Python str.lower acts on the
ASCII labels used by this program. -/
def lowerChar (c : Char) : Char :=
  if c.isUpper then Char.ofNat (c.toNat + 32) else c

/-- ASCII lowercase of a string (Python str.lower on ASCII data). -/
def lowerStr (s : String) : String :=
  String.mk (s.data.map lowerChar)

/-- Does the second character list have the first as a leading segment. -/
def beginsWith : List Char → List Char → Bool
  | [], _ => true
  | _ :: _, [] => false
  | a :: as, b :: bs => a == b && beginsWith as bs

/-- Substring test on character lists, as the Python `in` operator on
strings: the needle occurs contiguously somewhere in the haystack. -/
def hasSub : List Char → List Char → Bool
  | n, [] => n.isEmpty
  | n, c :: rest => beginsWith n (c :: rest) || hasSub n rest

/-- Substring test on strings (Python `needle in hay`). -/
def strHasSub (needle hay : String) : Bool :=
  hasSub needle.data hay.data

/-- Round a rational to the nearest integer, ties to even, as the Python
builtin round does. -/
def roundHalfEven (x : ℚ) : ℤ :=
  if x - ⌊x⌋ < 1/2 then ⌊x⌋
  else if 1/2 < x - ⌊x⌋ then ⌊x⌋ + 1
  else if ⌊x⌋ % 2 = 0 then ⌊x⌋ else ⌊x⌋ + 1

/-- Python round(x, d): round to d decimal places, ties to even. -/
def round_to (x : ℚ) (d : ℕ) : ℚ :=
  (roundHalfEven (x * 10 ^ d) : ℚ) / 10 ^ d

/-- A row of the sessions table (see init_db in app.py). -/
structure Session where
  id : ℕ
  user_id : ℕ
  start_time : ℕ
  end_time : Option ℕ
  total_detections : ℕ
  drowsy_detections : ℕ
  distance_km : ℚ
  start_lat : Option ℚ
  start_lng : Option ℚ
  end_lat : Option ℚ
  end_lng : Option ℚ
deriving DecidableEq, Repr

/-- A row of the detections table (see init_db in app.py). -/
structure Detection where
  id : ℕ
  session_id : ℕ
  timestamp : ℕ
  prediction : String
  confidence : ℚ
  latitude : Option ℚ
  longitude : Option ℚ
deriving DecidableEq, Repr

/-- The persistent store: the users table is abstracted to its list of
primary keys (only existence of a user id matters to the claims), and
the AUTOINCREMENT counters of the two other tables are carried
explicitly. -/
structure DB where
  users : List ℕ
  sessions : List Session
  detections : List Detection
  nextSessionId : ℕ
  nextDetectionId : ℕ
deriving DecidableEq, Repr

/-- The store right after init_db on a fresh file: no sessions, no
detections; AUTOINCREMENT keys start at 1. -/
def emptyDB : DB :=
  { users := [], sessions := [], detections := [], nextSessionId := 1, nextDetectionId := 1 }

/-- POST /sessions/start: INSERT a sessions row with the given user id,
start time and start coordinates; every other column takes its schema
default (counters 0, distance 0.0, end_time NULL).  Returns the store
and the fresh session id. -/
def start_session (db : DB) (now : ℕ) (uid : ℕ) (lat lng : Option ℚ) : DB × ℕ :=
  let sid := db.nextSessionId
  ({ db with
      sessions := db.sessions ++
        [{ id := sid, user_id := uid, start_time := now, end_time := none,
           total_detections := 0, drowsy_detections := 0, distance_km := 0,
           start_lat := lat, start_lng := lng, end_lat := none, end_lng := none }],
      nextSessionId := sid + 1 },
   sid)

/-- POST /sessions/\x7bsession_id\x7d/end: UPDATE sessions SET end_time = now
WHERE id = session_id; if the update matched zero rows respond 404.
The request body fields distance_km, latitude and longitude declared by
the SessionEnd model are accepted but never read by the handler, so the
embedding takes them as parameters the body ignores. -/
def end_session (db : DB) (now : ℕ) (sid : ℕ)
    (dkm : Option ℚ) (lat lng : Option ℚ) : Except ℕ DB :=
  if db.sessions.countP (fun s => decide (s.id = sid)) = 0 then
    Except.error 404
  else
    Except.ok { db with
      sessions := db.sessions.map (fun s =>
        if s.id = sid then { s with end_time := some now } else s) }

/-- The three labels whose lowercase form counts as drowsy in
detect_drowsiness. -/
def drowsyLabels : List String := ["drowsy", "sleepy", "tired"]

/-- The response body of POST /detect/\x7bsession_id\x7d. -/
structure DetectOut where
  prediction : String
  confidence : ℚ
  is_drowsy : Bool
  alert_level : String
deriving DecidableEq, Repr

/-- POST /detect/\x7bsession_id\x7d (recordDetection): compute
is_drowsy from the model result, INSERT a detections row, then UPDATE
the counters of every sessions row whose id matches (at most one, ids
being primary keys).  The update is a no-op when no row matches; no
error is raised for an unknown session id. -/
def detect_drowsiness (db : DB) (now : ℕ) (sid : ℕ) (pred : String) (conf : ℚ)
    (lat lng : Option ℚ) : DB × DetectOut :=
  let isd : Bool := drowsyLabels.contains (lowerStr pred) && decide ((7:ℚ)/10 < conf)
  let row : Detection :=
    { id := db.nextDetectionId, session_id := sid, timestamp := now,
      prediction := pred, confidence := conf, latitude := lat, longitude := lng }
  ({ db with
      detections := db.detections ++ [row],
      nextDetectionId := db.nextDetectionId + 1,
      sessions := db.sessions.map (fun s =>
        if s.id = sid then
          { s with total_detections := s.total_detections + 1,
                   drowsy_detections := s.drowsy_detections + (if isd then 1 else 0) }
        else s) },
   { prediction := pred, confidence := conf, is_drowsy := isd,
     alert_level := if isd && decide ((8:ℚ)/10 < conf) then "high" else "low" })

/-- What the YOLO call can come back as: the global model handle is
None, the call raised, or it produced a list of boxes each carrying a
class label and a confidence. -/
inductive ModelOutcome where
  | unavailable : ModelOutcome
  | raised : ModelOutcome
  | boxes : List (String × ℚ) → ModelOutcome
deriving DecidableEq, Repr

/-- The dictionary infer_image returns. -/
structure InferResult where
  prediction : String
  confidence : ℚ
deriving DecidableEq, Repr

/-- Left fold selecting the box of highest confidence, replacing the
current best only on a strictly larger confidence, so the first box
attaining the maximum wins, as np.argmax does. -/
def bestBox (b : String × ℚ) : List (String × ℚ) → String × ℚ
  | [] => b
  | x :: xs => bestBox (if b.2 < x.2 then x else b) xs

/-- infer_image: model handle None gives the model_error sentinel, an
empty box list gives no_detection, an exception gives the error
sentinel, else the label of the highest-confidence box together with
its confidence rounded to 4 decimal places. -/
def infer_image : ModelOutcome → InferResult
  | ModelOutcome.unavailable => { prediction := "model_error", confidence := 0 }
  | ModelOutcome.raised => { prediction := "error", confidence := 0 }
  | ModelOutcome.boxes [] => { prediction := "no_detection", confidence := 0 }
  | ModelOutcome.boxes (b :: bs) =>
      { prediction := (bestBox b bs).1, confidence := round_to (bestBox b bs).2 4 }

/-- The aggregate SELECT of GET /users/\x7buser_id\x7d/dashboard: sum
of drowsy_detections and sum of total_detections over the ended
sessions of the user (SUM over no rows is NULL, which the handler
coalesces to 0, as does the empty fold here). -/
def user_totals (db : DB) (uid : ℕ) : ℕ × ℕ :=
  ((db.sessions.filter (fun s => decide (s.user_id = uid) && s.end_time.isSome)).foldl
      (fun a s => a + s.drowsy_detections) 0,
   (db.sessions.filter (fun s => decide (s.user_id = uid) && s.end_time.isSome)).foldl
      (fun a s => a + s.total_detections) 0)

/-- The safety_score computation of GET /users/\x7buser_id\x7d/dashboard:
100 when the summed total is zero, else max(0, 100 - drowsy_percentage * 2)
with drowsy_percentage = (total_drowsy / total_detections) * 100, the
result rounded to one decimal place by the Python round builtin. -/
def safety_score (db : DB) (uid : ℕ) : ℚ :=
  let drowsy := (user_totals db uid).1
  let total := (user_totals db uid).2
  round_to (if 0 < total then max 0 (100 - ((drowsy : ℚ) / (total : ℚ) * 100) * 2) else 100) 1

/-- The correlated subquery of GET /admin/dashboard: the detections row
of a session with the greatest timestamp (ORDER BY timestamp DESC
LIMIT 1); on equal timestamps the later row wins. -/
def latest_detection : List Detection → Option Detection
  | [] => none
  | d :: ds =>
      match latest_detection ds with
      | none => some d
      | some b => if d.timestamp ≤ b.timestamp then some b else some d

/-- The latest detection of one session: the subquery filters the
detections table to the session and keeps the most recent row. -/
def latest_detection_of (db : DB) (sid : ℕ) : Option Detection :=
  latest_detection (db.detections.filter (fun d => decide (d.session_id = sid)))

/-- The is_drowsy flag GET /admin/dashboard derives for an active
session: there is a latest detection and its label contains drowsy as a
case-insensitive substring (Python: latest_prediction and
strHasSub drowsy on its lowercase form). -/
def latest_drowsy (db : DB) (sid : ℕ) : Bool :=
  match latest_detection_of db sid with
  | none => false
  | some d => strHasSub "drowsy" (lowerStr d.prediction)

/-- The active-session rows of GET /admin/dashboard: sessions with
end_time NULL joined to the users table on user_id, so a session whose
user id matches no users row is dropped by the inner join. -/
def active_sessions (db : DB) : List Session :=
  db.sessions.filter (fun s => s.end_time.isNone && db.users.contains s.user_id)

/-- The drowsy_drivers figure of GET /admin/dashboard: the number of
active-session rows whose latest detection is drowsy. -/
def drowsy_driver_count (db : DB) : ℕ :=
  (active_sessions db).countP (fun s => latest_drowsy db s.id)

/-- Modelled from the spec: drowsyDriverCount as the spec sentence
words it, the number of active sessions (end_time null) whose
most-recent detection by timestamp has a label containing drowsy
case-insensitively, with no condition on the user existing.  Kept
separate from drowsy_driver_count, the figure the code computes, to
compare the two. -/
def spec_drowsy_driver_count (db : DB) : ℕ :=
  (db.sessions.filter (fun s => s.end_time.isNone)).countP (fun s => latest_drowsy db s.id)

/-- ORDER BY timestamp ascending, as a stable insertion sort on the
timestamp field. -/
def sortByTime (ds : List Detection) : List Detection :=
  List.insertionSort (fun a b => a.timestamp ≤ b.timestamp) ds

/-- GET /sessions/\x7bsession_id\x7d/details: fetch the session row; if
none exists the handler raises a 404, but its final catch-all except
clause intercepts that very exception and re-raises it as a 500, so the
client sees status 500.  Otherwise respond with the session and its
detections ordered by timestamp ascending. -/
def get_session_details (db : DB) (sid : ℕ) : Except ℕ (Session × List Detection) :=
  match db.sessions.find? (fun s => decide (s.id = sid)) with
  | none => Except.error 500
  | some s =>
      Except.ok (s, sortByTime (db.detections.filter (fun d => decide (d.session_id = sid))))

/-- The three ledger operations a client can drive the store with. -/
inductive Op where
  | start : ℕ → ℕ → Option ℚ → Option ℚ → Op
  | detect : ℕ → ℕ → String → ℚ → Option ℚ → Option ℚ → Op
  | finish : ℕ → ℕ → Option ℚ → Option ℚ → Option ℚ → Op

/-- Apply one operation to the store; a failing end_session leaves the
store unchanged (the update matched zero rows and nothing was
committed). -/
def applyOp (db : DB) : Op → DB
  | Op.start now uid lat lng => (start_session db now uid lat lng).1
  | Op.detect now sid pred conf lat lng => (detect_drowsiness db now sid pred conf lat lng).1
  | Op.finish now sid dkm lat lng =>
      match end_session db now sid dkm lat lng with
      | Except.ok db2 => db2
      | Except.error _ => db

/-- Run a sequence of operations from the freshly initialized store. -/
def run (ops : List Op) : DB :=
  ops.foldl applyOp emptyDB

/-- The counter invariant of the data model. -/
def countersInv (db : DB) : Prop :=
  ∀ s ∈ db.sessions, s.drowsy_detections ≤ s.total_detections

/-- Claim C1: for every recorded detection the returned is_drowsy flag
is true exactly when the lowercased label is one of drowsy, sleepy,
tired and the confidence exceeds 0.7, and the returned alert_level is
high exactly when is_drowsy holds and the confidence exceeds 0.8, low
otherwise; in particular label tired with confidence 0.65 gives
is_drowsy false, and label Drowsy with confidence 0.85 gives is_drowsy
true with alert_level high. -/
theorem c1_is_drowsy_and_alert_level (db : DB) (now sid : ℕ) (pred : String)
    (conf : ℚ) (lat lng : Option ℚ) :
    ((detect_drowsiness db now sid pred conf lat lng).2.is_drowsy = true ↔
      (lowerStr pred ∈ drowsyLabels ∧ (7:ℚ)/10 < conf))
    ∧ ((detect_drowsiness db now sid pred conf lat lng).2.alert_level =
        if (detect_drowsiness db now sid pred conf lat lng).2.is_drowsy = true ∧ (8:ℚ)/10 < conf
        then "high" else "low")
    ∧ (detect_drowsiness emptyDB 0 1 "tired" ((65:ℚ)/100) none none).2.is_drowsy = false
    ∧ (detect_drowsiness emptyDB 0 1 "Drowsy" ((85:ℚ)/100) none none).2.is_drowsy = true
    ∧ (detect_drowsiness emptyDB 0 1 "Drowsy" ((85:ℚ)/100) none none).2.alert_level = "high" := by
  refine ⟨?_, ?_, ?_, ?_, ?_⟩
  · simp [detect_drowsiness, List.contains, List.elem_iff, Bool.and_eq_true, decide_eq_true_eq]
  · by_cases h1 : drowsyLabels.contains (lowerStr pred) && decide ((7:ℚ)/10 < conf) = true
    · by_cases h2 : (8:ℚ)/10 < conf
      · simp [detect_drowsiness, h1, h2]
      · simp [detect_drowsiness, h1, h2]
    · by_cases h2 : (8:ℚ)/10 < conf
      · simp [detect_drowsiness, Bool.not_eq_true _ ▸ h1, h2]
      · simp [detect_drowsiness, Bool.not_eq_true _ ▸ h1, h2]
  · have h : ¬ ((7:ℚ)/10 < 65/100) := by norm_num
    simp [detect_drowsiness, h]
  · have h : (7:ℚ)/10 < 85/100 := by norm_num
    have c : drowsyLabels.contains (lowerStr "Drowsy") = true := by decide
    simp [detect_drowsiness, h, c]
    decide
  · have h : (7:ℚ)/10 < 85/100 := by norm_num
    have h2 : (8:ℚ)/10 < 85/100 := by norm_num
    have c : drowsyLabels.contains (lowerStr "Drowsy") = true := by decide
    simp [detect_drowsiness, h, h2, c]
    decide

/-- Claim C2: every recordDetection call appends exactly one detections
row for the given session and rewrites the sessions table so that rows
whose id matches get total_detections incremented by 1 and
drowsy_detections incremented by 1 exactly when is_drowsy holds, while
every other row is unchanged. -/
theorem c2_detect_appends_and_increments (db : DB) (now sid : ℕ) (pred : String)
    (conf : ℚ) (lat lng : Option ℚ) :
    ((detect_drowsiness db now sid pred conf lat lng).1.detections.length
        = db.detections.length + 1)
    ∧ (∃ d : Detection,
        (detect_drowsiness db now sid pred conf lat lng).1.detections = db.detections ++ [d]
        ∧ d.session_id = sid ∧ d.prediction = pred ∧ d.confidence = conf)
    ∧ ((detect_drowsiness db now sid pred conf lat lng).1.sessions =
        db.sessions.map (fun s =>
          if s.id = sid then
            { s with
              total_detections := s.total_detections + 1,
              drowsy_detections := s.drowsy_detections +
                (if (detect_drowsiness db now sid pred conf lat lng).2.is_drowsy then 1 else 0) }
          else s))
    ∧ (∀ s ∈ db.sessions, s.id ≠ sid →
        s ∈ (detect_drowsiness db now sid pred conf lat lng).1.sessions)
    ∧ (∀ s ∈ db.sessions, s.id = sid →
        { s with
          total_detections := s.total_detections + 1,
          drowsy_detections := s.drowsy_detections +
            (if (detect_drowsiness db now sid pred conf lat lng).2.is_drowsy then 1 else 0) }
          ∈ (detect_drowsiness db now sid pred conf lat lng).1.sessions) := by
  refine ⟨by simp [detect_drowsiness], ?_, by simp [detect_drowsiness], ?_, ?_⟩
  · refine ⟨{ id := db.nextDetectionId, session_id := sid, timestamp := now,
              prediction := pred, confidence := conf, latitude := lat, longitude := lng },
            by simp [detect_drowsiness], rfl, rfl, rfl⟩
  · intro s hs hne
    simp only [detect_drowsiness]
    exact List.mem_map.mpr ⟨s, hs, by simp [hne]⟩
  · intro s hs heq
    simp only [detect_drowsiness]
    exact List.mem_map.mpr ⟨s, hs, by simp [heq]⟩

/-- A concrete session used by the c2 witness. -/
def sessW2 : Session :=
  { id := 1, user_id := 1, start_time := 0, end_time := none, total_detections := 0,
    drowsy_detections := 0, distance_km := 0, start_lat := none, start_lng := none,
    end_lat := none, end_lng := none }

/-- A concrete store used by the c2 witness. -/
def dbW2 : DB :=
  { users := [1], sessions := [sessW2], detections := [], nextSessionId := 2, nextDetectionId := 1 }

/-- Witness: c2 applied to a store holding one session. -/
theorem c2_detect_appends_and_increments_witness :
    (sessW2 ∈ dbW2.sessions) ∧ sessW2.id = 1
    ∧ ({ sessW2 with
          total_detections := sessW2.total_detections + 1,
          drowsy_detections := sessW2.drowsy_detections +
            (if (detect_drowsiness dbW2 5 1 "drowsy" 1 none none).2.is_drowsy then 1 else 0) }
        ∈ (detect_drowsiness dbW2 5 1 "drowsy" 1 none none).1.sessions) :=
  ⟨List.mem_singleton.mpr rfl, rfl,
    (c2_detect_appends_and_increments dbW2 5 1 "drowsy" 1 none none).2.2.2.2 sessW2
      (List.mem_singleton.mpr rfl) rfl⟩

/-- Preservation of the counter invariant by one operation. -/
theorem applyOp_countersInv {db : DB} (h : countersInv db) (op : Op) :
    countersInv (applyOp db op) := by
  cases op with
  | start now uid lat lng =>
      intro s hs
      simp only [applyOp, start_session, List.mem_append, List.mem_singleton] at hs
      rcases hs with hs | hs
      · exact h s hs
      · subst hs; exact Nat.le_refl 0
  | detect now sid pred conf lat lng =>
      intro s hs
      simp only [applyOp, detect_drowsiness, List.mem_map] at hs
      obtain ⟨t, ht, rfl⟩ := hs
      by_cases hid : t.id = sid
      · simp only [if_pos hid]
        have h1 := h t ht
        have h2 : (if (drowsyLabels.contains (lowerStr pred)
            && decide ((7:ℚ)/10 < conf)) = true then 1 else 0) ≤ 1 := by
          split
          · exact Nat.le_refl 1
          · exact Nat.zero_le 1
        exact Nat.add_le_add h1 h2
      · simp only [if_neg hid]
        exact h t ht
  | finish now sid dkm lat lng =>
      intro s hs
      simp only [applyOp] at hs
      rcases hend : end_session db now sid dkm lat lng with e | db2
      · rw [hend] at hs
        exact h s hs
      · rw [hend] at hs
        simp only [end_session] at hend
        by_cases hc : db.sessions.countP (fun t => decide (t.id = sid)) = 0
        · simp [hc] at hend
        · simp only [if_neg hc, Except.ok.injEq] at hend
          subst hend
          simp only [List.mem_map] at hs
          obtain ⟨t, ht, rfl⟩ := hs
          by_cases hid : t.id = sid
          · simp only [if_pos hid]
            exact h t ht
          · simp only [if_neg hid]
            exact h t ht

/-- The invariant holds along any foldl over operations. -/
theorem foldl_countersInv (ops : List Op) :
    ∀ db : DB, countersInv db → countersInv (ops.foldl applyOp db) := by
  induction ops with
  | nil => intro db h; exact h
  | cons op rest ih =>
      intro db h
      exact ih (applyOp db op) (applyOp_countersInv h op)

/-- Claim C3: in every store reachable from the fresh store by any
sequence of startSession, recordDetection and endSession operations,
every session satisfies drowsy_detections less than or equal to
total_detections. -/
theorem c3_drowsy_le_total_reachable (ops : List Op) :
    ∀ s ∈ (run ops).sessions, s.drowsy_detections ≤ s.total_detections := by
  have hempty : countersInv emptyDB := by
    intro s hs
    simp [emptyDB] at hs
  exact foldl_countersInv ops emptyDB hempty

/-- Witness: c3 applied to a one-operation run. -/
theorem c3_drowsy_le_total_reachable_witness :
    ({ id := 1, user_id := 1, start_time := 0, end_time := none, total_detections := 0,
       drowsy_detections := 0, distance_km := 0, start_lat := none, start_lng := none,
       end_lat := none, end_lng := none } : Session).drowsy_detections ≤
    ({ id := 1, user_id := 1, start_time := 0, end_time := none, total_detections := 0,
       drowsy_detections := 0, distance_km := 0, start_lat := none, start_lng := none,
       end_lat := none, end_lng := none } : Session).total_detections :=
  c3_drowsy_le_total_reachable [Op.start 0 1 none none] _ (List.Mem.head _)

/-- If some session row carries the id, the UPDATE of end_session
matches at least one row. -/
theorem countP_id_ne_zero {l : List Session} {sid : ℕ} {s : Session}
    (hs : s ∈ l) (hid : s.id = sid) :
    l.countP (fun t => decide (t.id = sid)) ≠ 0 := by
  intro h0
  have hz := List.countP_eq_zero.mp h0 s hs
  simp [hid] at hz

/-- After the UPDATE of end_session, every row carrying the id holds
the new end_time. -/
theorem mem_update_end_time {l : List Session} {sid now : ℕ} {t : Session}
    (ht : t ∈ l.map (fun u => if u.id = sid then { u with end_time := some now } else u))
    (htid : t.id = sid) : t.end_time = some now := by
  simp only [List.mem_map] at ht
  obtain ⟨u, hu, rfl⟩ := ht
  by_cases h : u.id = sid
  · simp [h]
  · simp only [if_neg h] at htid ⊢
    exact absurd htid h

/-- The UPDATE of end_session keeps a row with the id present. -/
theorem update_keeps_id {l : List Session} {sid : ℕ} (now : ℕ) {s : Session}
    (hs : s ∈ l) (hid : s.id = sid) :
    ∃ t ∈ l.map (fun u => if u.id = sid then { u with end_time := some now } else u),
      t.id = sid :=
  ⟨_, List.mem_map.mpr ⟨s, hs, rfl⟩, by simp [hid]⟩

/-- Claim C5: endSession responds 404 exactly when no session row has
the requested id; on an existing id it succeeds and stamps end_time
with the current time, and a second call on the same id succeeds again
and overwrites end_time with the later time. -/
theorem c5_end_session_notfound_and_restamp (db : DB) (now now2 sid : ℕ)
    (d d2 la lo la2 lo2 : Option ℚ) :
    (end_session db now sid d la lo = Except.error 404 ↔ ∀ s ∈ db.sessions, s.id ≠ sid)
    ∧ (∀ s ∈ db.sessions, s.id = sid →
        ∃ db2, end_session db now sid d la lo = Except.ok db2
          ∧ (∀ t ∈ db2.sessions, t.id = sid → t.end_time = some now)
          ∧ ∃ db3, end_session db2 now2 sid d2 la2 lo2 = Except.ok db3
              ∧ (∀ t ∈ db3.sessions, t.id = sid → t.end_time = some now2)) := by
  constructor
  · constructor
    · intro he s hs hid
      have hne := countP_id_ne_zero hs hid
      simp [end_session, hne] at he
    · intro hall
      have hz : db.sessions.countP (fun t => decide (t.id = sid)) = 0 :=
        List.countP_eq_zero.mpr (fun s hs => by simp [hall s hs])
      simp [end_session, hz]
  · intro s hs hid
    have hne := countP_id_ne_zero hs hid
    refine ⟨{ db with sessions := db.sessions.map (fun u =>
        if u.id = sid then { u with end_time := some now } else u) },
      by simp [end_session, hne],
      fun t ht htid => mem_update_end_time ht htid, ?_⟩
    obtain ⟨t, htm, htid⟩ := update_keeps_id now hs hid
    have hne2 := countP_id_ne_zero htm htid
    refine ⟨{ db with sessions := (db.sessions.map (fun u =>
        if u.id = sid then { u with end_time := some now } else u)).map (fun u =>
        if u.id = sid then { u with end_time := some now2 } else u) }, ?_, ?_⟩
    · simp only [end_session]
      rw [if_neg hne2]
    · exact fun u hu huid => mem_update_end_time hu huid

/-- A concrete session used by the c5 witness. -/
def sessW5 : Session :=
  { id := 1, user_id := 1, start_time := 0, end_time := none, total_detections := 3,
    drowsy_detections := 1, distance_km := 0, start_lat := none, start_lng := none,
    end_lat := none, end_lng := none }

/-- A concrete store used by the c5 witness. -/
def dbW5 : DB :=
  { users := [1], sessions := [sessW5], detections := [], nextSessionId := 2, nextDetectionId := 1 }

/-- Witness: c5 applied to a store holding one session, ending it twice. -/
theorem c5_end_session_notfound_and_restamp_witness :
    (sessW5 ∈ dbW5.sessions) ∧ sessW5.id = 1
    ∧ (∃ db2, end_session dbW5 7 1 none none none = Except.ok db2
        ∧ (∀ t ∈ db2.sessions, t.id = 1 → t.end_time = some 7)
        ∧ ∃ db3, end_session db2 9 1 none none none = Except.ok db3
            ∧ (∀ t ∈ db3.sessions, t.id = 1 → t.end_time = some 9)) :=
  ⟨List.mem_singleton.mpr rfl, rfl,
    (c5_end_session_notfound_and_restamp dbW5 7 9 1 none none none none none none).2 sessW5
      (List.mem_singleton.mpr rfl) rfl⟩

/-- Claim C10: a successful endSession call changes only the end_time
field of rows carrying the requested id: users, detections, the id
counters, every other session row and every other field are unchanged,
and the optional distance and location arguments of the request body
never influence the result. -/
theorem c10_end_session_frame (db : DB) (now sid : ℕ) (d d2 la lo la2 lo2 : Option ℚ)
    (s : Session) (hs : s ∈ db.sessions) (hid : s.id = sid) :
    ∃ db2, end_session db now sid d la lo = Except.ok db2
      ∧ db2.users = db.users
      ∧ db2.detections = db.detections
      ∧ db2.nextSessionId = db.nextSessionId
      ∧ db2.nextDetectionId = db.nextDetectionId
      ∧ db2.sessions = db.sessions.map (fun u =>
          if u.id = sid then { u with end_time := some now } else u)
      ∧ (∀ u ∈ db.sessions, u.id ≠ sid → u ∈ db2.sessions)
      ∧ (∀ u ∈ db.sessions, u.id = sid →
          ({ u with end_time := some now } : Session) ∈ db2.sessions)
      ∧ (∀ u ∈ db2.sessions, ∃ v ∈ db.sessions,
            u.id = v.id ∧ u.user_id = v.user_id ∧ u.start_time = v.start_time
          ∧ u.total_detections = v.total_detections
          ∧ u.drowsy_detections = v.drowsy_detections
          ∧ u.distance_km = v.distance_km
          ∧ u.start_lat = v.start_lat ∧ u.start_lng = v.start_lng
          ∧ u.end_lat = v.end_lat ∧ u.end_lng = v.end_lng
          ∧ (v.id ≠ sid → u.end_time = v.end_time)
          ∧ (v.id = sid → u.end_time = some now))
      ∧ end_session db now sid d la lo = end_session db now sid d2 la2 lo2 := by
  have hne := countP_id_ne_zero hs hid
  refine ⟨{ db with sessions := db.sessions.map (fun u =>
      if u.id = sid then { u with end_time := some now } else u) },
    ?_, rfl, rfl, rfl, rfl, rfl, ?_, ?_, ?_, rfl⟩
  · simp only [end_session]
    rw [if_neg hne]
  · intro u hu hune
    exact List.mem_map.mpr ⟨u, hu, by simp [hune]⟩
  · intro u hu hueq
    exact List.mem_map.mpr ⟨u, hu, by simp [hueq]⟩
  · intro u hu
    obtain ⟨v, hv, rfl⟩ := List.mem_map.mp hu
    by_cases h : v.id = sid
    · exact ⟨v, hv, by simp [h]⟩
    · exact ⟨v, hv, by simp [h]⟩

/-- A concrete session used by the c10 witness. -/
def sessW10 : Session :=
  { id := 4, user_id := 2, start_time := 11, end_time := none, total_detections := 6,
    drowsy_detections := 2, distance_km := 3, start_lat := some 1, start_lng := some 2,
    end_lat := none, end_lng := none }

/-- A concrete store used by the c10 witness. -/
def dbW10 : DB :=
  { users := [2], sessions := [sessW10], detections := [], nextSessionId := 5,
    nextDetectionId := 1 }

/-- Witness: c10 applied to a store holding one session. -/
theorem c10_end_session_frame_witness :
    (sessW10 ∈ dbW10.sessions) ∧ sessW10.id = 4
    ∧ (∃ db2, end_session dbW10 20 4 (some 9) (some 7) (some 8) = Except.ok db2
        ∧ db2.users = dbW10.users
        ∧ db2.detections = dbW10.detections
        ∧ db2.nextSessionId = dbW10.nextSessionId
        ∧ db2.nextDetectionId = dbW10.nextDetectionId
        ∧ db2.sessions = dbW10.sessions.map (fun u =>
            if u.id = 4 then { u with end_time := some 20 } else u)
        ∧ (∀ u ∈ dbW10.sessions, u.id ≠ 4 → u ∈ db2.sessions)
        ∧ (∀ u ∈ dbW10.sessions, u.id = 4 →
            ({ u with end_time := some 20 } : Session) ∈ db2.sessions)
        ∧ (∀ u ∈ db2.sessions, ∃ v ∈ dbW10.sessions,
              u.id = v.id ∧ u.user_id = v.user_id ∧ u.start_time = v.start_time
            ∧ u.total_detections = v.total_detections
            ∧ u.drowsy_detections = v.drowsy_detections
            ∧ u.distance_km = v.distance_km
            ∧ u.start_lat = v.start_lat ∧ u.start_lng = v.start_lng
            ∧ u.end_lat = v.end_lat ∧ u.end_lng = v.end_lng
            ∧ (v.id ≠ 4 → u.end_time = v.end_time)
            ∧ (v.id = 4 → u.end_time = some 20))
        ∧ end_session dbW10 20 4 (some 9) (some 7) (some 8) =
            end_session dbW10 20 4 none none none) :=
  ⟨List.mem_singleton.mpr rfl, rfl,
    c10_end_session_frame dbW10 20 4 (some 9) none (some 7) (some 8) none none sessW10
      (List.mem_singleton.mpr rfl) rfl⟩

/-- A guarded row update is the identity on a table with no matching
row. -/
theorem map_if_id {sid : ℕ} (f : Session → Session) :
    ∀ {l : List Session}, (∀ s ∈ l, s.id ≠ sid) →
      l.map (fun s => if s.id = sid then f s else s) = l := by
  intro l
  induction l with
  | nil => intro _; rfl
  | cons a t ih =>
      intro h
      simp only [List.map_cons]
      rw [if_neg (h a (List.mem_cons_self a t)),
        ih (fun s hs => h s (List.mem_cons_of_mem a hs))]

/-- Claim C8: recordDetection on a session id matching no session row
raises no error: it returns the usual result, still inserts the
detections row referencing the nonexistent session, and the counter
UPDATE matches zero rows, leaving every session unchanged. -/
theorem c8_detect_unknown_session (db : DB) (now sid : ℕ) (pred : String) (conf : ℚ)
    (lat lng : Option ℚ) (h : ∀ s ∈ db.sessions, s.id ≠ sid) :
    ((detect_drowsiness db now sid pred conf lat lng).1.sessions = db.sessions)
    ∧ ((detect_drowsiness db now sid pred conf lat lng).1.detections =
        db.detections ++
          [{ id := db.nextDetectionId, session_id := sid, timestamp := now,
             prediction := pred, confidence := conf, latitude := lat, longitude := lng }])
    ∧ (detect_drowsiness db now sid pred conf lat lng).2.prediction = pred
    ∧ (detect_drowsiness db now sid pred conf lat lng).2.confidence = conf := by
  refine ⟨?_, rfl, rfl, rfl⟩
  simp only [detect_drowsiness]
  exact map_if_id _ h

/-- Witness: c8 applied to the fresh store, which has no sessions. -/
theorem c8_detect_unknown_session_witness :
    ((detect_drowsiness emptyDB 3 1 "sleepy" 1 none none).1.sessions = emptyDB.sessions)
    ∧ ((detect_drowsiness emptyDB 3 1 "sleepy" 1 none none).1.detections =
        emptyDB.detections ++
          [{ id := emptyDB.nextDetectionId, session_id := 1, timestamp := 3,
             prediction := "sleepy", confidence := 1, latitude := none, longitude := none }])
    ∧ (detect_drowsiness emptyDB 3 1 "sleepy" 1 none none).2.prediction = "sleepy"
    ∧ (detect_drowsiness emptyDB 3 1 "sleepy" 1 none none).2.confidence = 1 :=
  c8_detect_unknown_session emptyDB 3 1 "sleepy" 1 none none
    (fun s hs => absurd hs (List.not_mem_nil s))

/-- A concrete session used by the c4 evaluation. -/
def sessW4 : Session :=
  { id := 1, user_id := 1, start_time := 0, end_time := some 20, total_detections := 2,
    drowsy_detections := 1, distance_km := 0, start_lat := none, start_lng := none,
    end_lat := none, end_lng := none }

/-- A detection with the later timestamp, inserted first. -/
def detW4a : Detection :=
  { id := 1, session_id := 1, timestamp := 9, prediction := "drowsy", confidence := 1,
    latitude := none, longitude := none }

/-- A detection with the earlier timestamp, inserted second. -/
def detW4b : Detection :=
  { id := 2, session_id := 1, timestamp := 3, prediction := "alert", confidence := 0,
    latitude := none, longitude := none }

/-- Claim C4, on the code as written: requesting the details of a
session id with no session row yields status 500, not the 404 the
handler tries to raise, because the catch-all except clause of
get_session_details re-raises the 404 HTTPException as a 500; on an
existing session the endpoint does return the session with its
detections ordered by timestamp ascending. -/
theorem c4_details_500_on_missing_and_sorted_when_found :
    (get_session_details emptyDB 1 = Except.error 500)
    ∧ ((500 : ℕ) ≠ 404)
    ∧ (get_session_details
        { users := [1], sessions := [sessW4], detections := [detW4a, detW4b],
          nextSessionId := 2, nextDetectionId := 3 } 1 =
        Except.ok (sessW4, [detW4b, detW4a]))
    ∧ detW4b.timestamp ≤ detW4a.timestamp :=
  ⟨rfl, by decide, rfl, by decide⟩

/-- Rounding the integer value 100 to one decimal place returns it. -/
theorem round_to_hundred : round_to 100 1 = 100 := by
  norm_num [round_to, roundHalfEven]

/-- Rounding the integer value 50 to one decimal place returns it. -/
theorem round_to_fifty : round_to 50 1 = 50 := by
  norm_num [round_to, roundHalfEven]

/-- A concrete ended session used by the c6 evaluation: 100 detections,
25 of them drowsy. -/
def sessW6 : Session :=
  { id := 1, user_id := 1, start_time := 0, end_time := some 10, total_detections := 100,
    drowsy_detections := 25, distance_km := 0, start_lat := none, start_lng := none,
    end_lat := none, end_lng := none }

/-- A concrete store used by the c6 evaluation. -/
def dbW6 : DB :=
  { users := [1], sessions := [sessW6], detections := [], nextSessionId := 2,
    nextDetectionId := 1 }

/-- Claim C6: the safety score sums the counters over ended sessions
only; it is 100 when the summed total is zero and otherwise
max(0, 100 - 2 * (100 * totalDrowsy / totalDetections)) rounded to one
decimal place; a user whose one ended session has 100 detections, 25
drowsy, scores 50, and a user with no ended sessions scores 100. -/
theorem c6_safety_score_formula (db : DB) (uid : ℕ) :
    (safety_score db uid =
      if (user_totals db uid).2 = 0 then 100
      else round_to
        (max 0 (100 - 2 * (100 * ((user_totals db uid).1 : ℚ) / ((user_totals db uid).2 : ℚ))))
        1)
    ∧ safety_score dbW6 1 = 50
    ∧ safety_score emptyDB 1 = 100 := by
  refine ⟨?_, ?_, ?_⟩
  · rcases Nat.eq_zero_or_pos (user_totals db uid).2 with h | h
    · rw [if_pos h]
      unfold safety_score
      rw [h]
      norm_num [round_to_hundred]
    · rw [if_neg (Nat.pos_iff_ne_zero.mp h)]
      show round_to (if 0 < (user_totals db uid).2 then
          0 ⊔ (100 - ((user_totals db uid).1 : ℚ) / ((user_totals db uid).2 : ℚ) * 100 * 2)
        else 100) 1 = _
      rw [if_pos h]
      congr 1
      congr 1
      ring
  · have ht : user_totals dbW6 1 = (25, 100) := rfl
    unfold safety_score
    rw [ht]
    norm_num
    exact round_to_fifty
  · have ht : user_totals emptyDB 1 = (0, 0) := rfl
    unfold safety_score
    rw [ht]
    norm_num [round_to_hundred]

/-- An active session whose user id 7 has no users row. -/
def sessW7o : Session :=
  { id := 1, user_id := 7, start_time := 0, end_time := none, total_detections := 1,
    drowsy_detections := 1, distance_km := 0, start_lat := none, start_lng := none,
    end_lat := none, end_lng := none }

/-- A store with an empty users table and one active session whose
latest detection is drowsy. -/
def dbW7o : DB :=
  { users := [],
    sessions := [sessW7o],
    detections := [
      { id := 1, session_id := 1, timestamp := 0, prediction := "drowsy",
        confidence := 1, latitude := none, longitude := none }],
    nextSessionId := 2, nextDetectionId := 2 }

/-- Counterexample to claim C7 as stated: the admin query joins the
sessions table to the users table, so an active session whose user id
matches no users row is dropped; on dbW7o the code counts 0 drowsy
drivers while the count over all active sessions described by the claim
is 1. -/
theorem c7_join_drops_orphan_active_session :
    drowsy_driver_count dbW7o = 0 ∧ spec_drowsy_driver_count dbW7o = 1 :=
  ⟨rfl, rfl⟩

/-- Sessions for the c7 scenario: one driver, three active sessions. -/
def sessW7a : Session :=
  { id := 1, user_id := 1, start_time := 0, end_time := none, total_detections := 2,
    drowsy_detections := 1, distance_km := 0, start_lat := none, start_lng := none,
    end_lat := none, end_lng := none }

/-- Second active session of the same driver. -/
def sessW7b : Session :=
  { id := 2, user_id := 1, start_time := 1, end_time := none, total_detections := 2,
    drowsy_detections := 1, distance_km := 0, start_lat := none, start_lng := none,
    end_lat := none, end_lng := none }

/-- Third active session of the same driver, with no detections. -/
def sessW7c : Session :=
  { id := 3, user_id := 1, start_time := 2, end_time := none, total_detections := 0,
    drowsy_detections := 0, distance_km := 0, start_lat := none, start_lng := none,
    end_lat := none, end_lng := none }

/-- A store with one driver holding three active sessions: the first
has a drowsy latest detection, the second has a non-drowsy latest
detection, the third has none. -/
def dbW7 : DB :=
  { users := [1],
    sessions := [sessW7a, sessW7b, sessW7c],
    detections := [
      { id := 1, session_id := 1, timestamp := 0, prediction := "alert", confidence := 1,
        latitude := none, longitude := none },
      { id := 2, session_id := 1, timestamp := 5, prediction := "Very Drowsy", confidence := 1,
        latitude := none, longitude := none },
      { id := 3, session_id := 2, timestamp := 2, prediction := "drowsy", confidence := 1,
        latitude := none, longitude := none },
      { id := 4, session_id := 2, timestamp := 7, prediction := "awake", confidence := 1,
        latitude := none, longitude := none }],
    nextSessionId := 4, nextDetectionId := 5 }

/-- Claim C7 as amended: drowsyDriverCount equals the number of active
sessions whose user id exists in the users table and whose most-recent
detection by timestamp has a label containing drowsy as a
case-insensitive substring; on stores where every session references an
existing user this is exactly the count the claim describes, the count
is per qualifying session rather than per distinct driver, and an
active session with no detections contributes 0: one driver with three
active sessions, one drowsy-latest, one not, one empty, contributes
exactly 1. -/
theorem c7_drowsy_driver_count_amended (db : DB)
    (h : ∀ s ∈ db.sessions, s.user_id ∈ db.users) :
    drowsy_driver_count db = spec_drowsy_driver_count db
    ∧ drowsy_driver_count dbW7 = 1
    ∧ spec_drowsy_driver_count dbW7 = 1 := by
  refine ⟨?_, rfl, rfl⟩
  unfold drowsy_driver_count spec_drowsy_driver_count active_sessions
  congr 1
  apply List.filter_congr
  intro s hs
  have hc : db.users.contains s.user_id = true := by
    rw [List.contains]
    exact List.elem_iff.mpr (h s hs)
  rw [hc, Bool.and_true]

/-- Witness: the amended c7 applied to dbW7, whose sessions all
reference the existing driver. -/
theorem c7_drowsy_driver_count_amended_witness :
    (∀ s ∈ dbW7.sessions, s.user_id ∈ dbW7.users)
    ∧ (drowsy_driver_count dbW7 = spec_drowsy_driver_count dbW7
        ∧ drowsy_driver_count dbW7 = 1
        ∧ spec_drowsy_driver_count dbW7 = 1) :=
  ⟨by decide, c7_drowsy_driver_count_amended dbW7 (by decide)⟩

/-- The selected box is one of the boxes. -/
theorem bestBox_mem (b : String × ℚ) (l : List (String × ℚ)) : bestBox b l ∈ b :: l := by
  induction l generalizing b with
  | nil => simp [bestBox]
  | cons x xs ih =>
      simp only [bestBox]
      rcases List.mem_cons.mp (ih (if b.2 < x.2 then x else b)) with h | h
      · rw [h]
        by_cases hc : b.2 < x.2
        · simp [hc]
        · simp [hc]
      · exact List.mem_cons_of_mem b (List.mem_cons_of_mem x h)

/-- The selected box has the greatest confidence among the boxes. -/
theorem bestBox_le (b : String × ℚ) (l : List (String × ℚ)) :
    ∀ x ∈ b :: l, x.2 ≤ (bestBox b l).2 := by
  induction l generalizing b with
  | nil =>
      intro x hx
      rw [List.mem_singleton.mp hx]
      exact le_refl _
  | cons y ys ih =>
      intro x hx
      simp only [bestBox]
      have hb : b.2 ≤ (if b.2 < y.2 then y else b).2 := by
        by_cases hc : b.2 < y.2
        · rw [if_pos hc]; exact le_of_lt hc
        · rw [if_neg hc]
      have hy : y.2 ≤ (if b.2 < y.2 then y else b).2 := by
        by_cases hc : b.2 < y.2
        · rw [if_pos hc]
        · rw [if_neg hc]; exact le_of_not_lt hc
      have hhead : (if b.2 < y.2 then y else b).2 ≤ (bestBox (if b.2 < y.2 then y else b) ys).2 :=
        ih (if b.2 < y.2 then y else b) _ (List.mem_cons_self _ _)
      rcases List.mem_cons.mp hx with he | hx2
      · rw [he]; exact le_trans hb hhead
      rcases List.mem_cons.mp hx2 with he | hx3
      · rw [he]; exact le_trans hy hhead
      · exact ih _ x (List.mem_cons_of_mem _ hx3)

/-- Counterexample to claim C9 as stated: infer_image does not return
the confidence of the best box itself but that value rounded to 4
decimal places; on a single box of confidence 1/3 the returned
confidence is 3333/10000, which differs from 1/3. -/
theorem c9_confidence_rounded_counterexample :
    (infer_image (ModelOutcome.boxes [("awake", (1:ℚ)/3)])).confidence = 3333/10000
    ∧ ((3333:ℚ)/10000) ≠ (1:ℚ)/3 := by
  constructor
  · show round_to (bestBox ("awake", (1:ℚ)/3) []).2 4 = 3333/10000
    show round_to ((1:ℚ)/3) 4 = 3333/10000
    norm_num [round_to, roundHalfEven]
  · norm_num

/-- Claim C9 as amended: infer_image returns the model_error sentinel
when the model handle is unavailable, the no_detection sentinel when
the model reports no boxes, the error sentinel when the model raises,
and otherwise the label of the box with the highest confidence among
the output boxes together with that confidence rounded to 4 decimal
places. -/
theorem c9_infer_image_amended :
    (infer_image ModelOutcome.unavailable = { prediction := "model_error", confidence := 0 })
    ∧ (infer_image ModelOutcome.raised = { prediction := "error", confidence := 0 })
    ∧ (infer_image (ModelOutcome.boxes []) = { prediction := "no_detection", confidence := 0 })
    ∧ (∀ (b : String × ℚ) (bs : List (String × ℚ)),
        infer_image (ModelOutcome.boxes (b :: bs)) =
          { prediction := (bestBox b bs).1, confidence := round_to (bestBox b bs).2 4 }
        ∧ bestBox b bs ∈ b :: bs
        ∧ ∀ x ∈ b :: bs, x.2 ≤ (bestBox b bs).2) :=
  ⟨rfl, rfl, rfl, fun b bs => ⟨rfl, bestBox_mem b bs, bestBox_le b bs⟩⟩

/-- Witness: the amended c9 applied to a two-box output where the
second box wins. -/
theorem c9_infer_image_amended_witness :
    (("sleepy", (0:ℚ)) ∈ [("sleepy", (0:ℚ)), ("drowsy", (1:ℚ))])
    ∧ (infer_image (ModelOutcome.boxes [("sleepy", (0:ℚ)), ("drowsy", (1:ℚ))]) =
        { prediction := (bestBox ("sleepy", (0:ℚ)) [("drowsy", (1:ℚ))]).1,
          confidence := round_to (bestBox ("sleepy", (0:ℚ)) [("drowsy", (1:ℚ))]).2 4 })
    ∧ (("sleepy", (0:ℚ)).2 ≤ (bestBox ("sleepy", (0:ℚ)) [("drowsy", (1:ℚ))]).2) :=
  ⟨List.mem_cons_self _ _,
    (c9_infer_image_amended.2.2.2 ("sleepy", (0:ℚ)) [("drowsy", (1:ℚ))]).1,
    (c9_infer_image_amended.2.2.2 ("sleepy", (0:ℚ)) [("drowsy", (1:ℚ))]).2.2
      ("sleepy", (0:ℚ)) (List.mem_cons_self _ _)⟩
